import Mathlib

/-!
Shallow embedding of `src/modules/bluetooth/backend-droid-native.c` (the
PulseAudio droid-native HSP headset backend) and proofs about it.

`pa_hashmap` in PulseAudio keeps entries in insertion order (a doubly linked
iteration list); `pa_hashmap_put` fails (leaving the map unchanged) when the
key is already present, `pa_hashmap_last` returns the most recently inserted
entry, `pa_hashmap_remove` unlinks an entry.  The backend's three call maps
(`call_paths`, `active_calls`, `held_calls`) map a call path string to that
same string, so we model each map as an insertion-ordered list of distinct
strings.
-/

namespace DroidHsp

/-- Insertion-ordered string map keyed by the string itself (pa_hashmap with
path both key and value). -/
abbrev OMap := List String

/-- pa_hashmap_put: appends at the tail of the iteration order; a put of an
existing key fails and leaves the map unchanged. -/
def omapPut (m : OMap) (k : String) : OMap :=
  if k ∈ m then m else m ++ [k]

/-- pa_hashmap_remove: drops the entry with the given key. -/
def omapRemove (m : OMap) (k : String) : OMap :=
  m.filter (fun x => x != k)

/-- pa_hashmap_last: the most recently inserted entry, none when empty. -/
def omapLast (m : OMap) : Option String :=
  m.getLast?

/-- State held in `struct pa_bluetooth_backend` that the call-handling code
reads and writes: the three call maps and the incoming-call pointer. -/
structure Backend where
  call_paths : OMap
  active_calls : OMap
  held_calls : OMap
  incoming_call_path : Option String
deriving DecidableEq, Repr

/-- The backend as initialised in pa_bluetooth_droid_backend_hsp_new: all
maps empty, no incoming call. -/
def emptyBackend : Backend := ⟨[], [], [], none⟩

/-- The telephony actions the button handler can issue: voicecall_send with
"Answer"/"Hangup" on a call path, voicecall_hold_and_answer and
voicecall_swap_calls on a call path (those two derive the modem path from
the call path before sending). -/
inductive ButtonAction where
  | answer (path : String)
  | holdAndAnswer (path : String)
  | hangup (path : String)
  | swapCalls (path : String)
deriving DecidableEq, Repr

/-- rfcomm_handle_button: the sequence of telephony actions issued for one
AT+CKPD=200 button press, read off the backend state. -/
def rfcomm_handle_button (b : Backend) : List ButtonAction :=
  match b.incoming_call_path with
  | some inc =>
      if b.call_paths.length = 1 then [.answer inc] else [.holdAndAnswer inc]
  | none =>
      match omapLast b.active_calls, omapLast b.held_calls with
      | some a, some h => [.hangup a, .swapCalls h]
      | some a, none => [.hangup a]
      | none, some h => [.hangup h]
      | none, none => []

/-- Is a parsed call state string one of the incoming-like states tested in
voicecall_parse_call ("incoming" or "waiting")?  The state is optional: the
properties array may carry no State entry. -/
def stateIsIncoming : Option String → Bool
  | some s => s = "incoming" || s = "waiting"
  | none => false

/-- voicecall_parse_call: invoked from GetCalls replies and CallAdded
signals with a call path and the parsed State property.  Returns the updated
backend and whether rfcomm_ring_start was invoked. -/
def voicecall_parse_call (b : Backend) (path : String) (st : Option String) :
    Backend × Bool :=
  let cp := omapPut b.call_paths path
  if stateIsIncoming st then
    ({ b with call_paths := cp, incoming_call_path := some path },
     cp.length = 1)
  else
    ({ b with
       call_paths := cp,
       active_calls := omapPut (omapRemove b.active_calls path) path },
     false)

/-- The State-property branch of filter_cb for a VoiceCall PropertyChanged
signal: the "active", "held" and "disconnected" cases; any other state
string leaves the maps untouched. -/
def filter_state_changed (b : Backend) (path st : String) : Backend :=
  if st = "active" then
    { b with
      incoming_call_path :=
        if b.incoming_call_path = some path then none
        else b.incoming_call_path,
      held_calls := omapRemove b.held_calls path,
      active_calls :=
        let a := omapRemove b.active_calls path
        if path ∈ b.call_paths then omapPut a path else a }
  else if st = "held" then
    { b with
      active_calls := omapRemove b.active_calls path,
      held_calls :=
        if path ∈ b.call_paths then omapPut b.held_calls path
        else b.held_calls }
  else if st = "disconnected" then
    { b with
      incoming_call_path :=
        if b.incoming_call_path = some path then none
        else b.incoming_call_path,
      active_calls := omapRemove b.active_calls path,
      held_calls := omapRemove b.held_calls path,
      call_paths := omapRemove b.call_paths path }
  else b

/-- voicecall_clear_calls: remove_all on the three maps and clear the
incoming-call pointer. -/
def voicecall_clear_calls (b : Backend) : Backend :=
  { b with
    active_calls := [], held_calls := [], call_paths := [],
    incoming_call_path := none }

/-- One registry update operation: observe is voicecall_parse_call
(enumeration reply entry or CallAdded), transition is the State branch of
filter_cb (PropertyChanged). -/
inductive RegOp where
  | observe (path : String) (st : Option String)
  | transition (path : String) (st : String)
deriving DecidableEq, Repr

/-- Apply one registry operation to the backend state. -/
def regStep (b : Backend) : RegOp → Backend
  | .observe p s => (voicecall_parse_call b p s).1
  | .transition p s => filter_state_changed b p s

/-- Run a sequence of registry operations from the freshly created backend. -/
def regRun (ops : List RegOp) : Backend :=
  ops.foldl regStep emptyBackend

/-- Index of the first '/' in a character list, as strstr(s, "/") finds it. -/
def firstSlash : List Char → Option Nat
  | [] => none
  | c :: cs => if c = '/' then some 0 else (firstSlash cs).map (· + 1)

/-- Core of path_get_modem on the character list of the path: reject strings
shorter than two characters, then truncate the copy at the first '/' found
from index 1 on (strstr(modem + 1, "/")), returning none when there is no
such separator. -/
def pathGetModemL (cs : List Char) : Option (List Char) :=
  if cs.length < 2 then none
  else
    match cs with
    | [] => none
    | c :: rest => (firstSlash rest).map (fun i => c :: rest.take i)

/-- path_get_modem: the modem object path derived from a voice-call object
path, or none for a malformed path. -/
def path_get_modem (p : String) : Option String :=
  (pathGetModemL p.toList).map (fun l => String.mk l)

/-- One outbound D-Bus method call to the oFono service: destination object
path, interface and method name (voicecall_send and the two
VoiceCallManager helpers all send fire-and-forget method calls). -/
structure DBusCall where
  destPath : String
  iface : String
  method : String
deriving DecidableEq, Repr

/-- voicecall_send: a method call on the VoiceCall interface of the given
call path ("Answer" or "Hangup"). -/
def voicecall_send (path action : String) : List DBusCall :=
  [⟨path, "org.ofono.VoiceCall", action⟩]

/-- voicecall_hold_and_answer: a HoldAndAnswer call on the VoiceCallManager
interface of the call's modem, or nothing when the modem path cannot be
derived. -/
def voicecall_hold_and_answer (path : String) : List DBusCall :=
  match path_get_modem path with
  | some modem => [⟨modem, "org.ofono.VoiceCallManager", "HoldAndAnswer"⟩]
  | none => []

/-- voicecall_swap_calls: a SwapCalls call on the VoiceCallManager interface
of the call's modem, or nothing when the modem path cannot be derived. -/
def voicecall_swap_calls (path : String) : List DBusCall :=
  match path_get_modem path with
  | some modem => [⟨modem, "org.ofono.VoiceCallManager", "SwapCalls"⟩]
  | none => []

/-! ### RFCOMM transport: gain state and AT-line handling -/

/-- The gain fields of `pa_bluetooth_transport` this backend touches
(uint16_t in the source; only equality tests and decimal formatting are
applied to them, so Nat is adequate). -/
structure Transport where
  speaker_gain : Nat
  microphone_gain : Nat
deriving DecidableEq, Repr

/-- The outbound speaker-gain notification line sprintf'd by
set_speaker_gain. -/
def vgsLine (g : Nat) : String := "\r\n+VGS=" ++ toString g ++ "\r\n"

/-- The outbound microphone-gain notification line sprintf'd by
set_microphone_gain. -/
def vgmLine (g : Nat) : String := "\r\n+VGM=" ++ toString g ++ "\r\n"

/-- The fixed acknowledgement line written after every decoded RFCOMM
input chunk. -/
def okLine : String := "\r\nOK\r\n"

/-- The RING line written by rfcomm_ring. -/
def ringLine : String := "\r\nRING\r\n"

/-- set_speaker_gain: returns the updated transport and the list of RFCOMM
writes performed (empty when the new value equals the stored one). -/
def set_speaker_gain (t : Transport) (gain : Nat) : Transport × List String :=
  if t.speaker_gain = gain then (t, [])
  else ({ t with speaker_gain := gain }, [vgsLine gain])

/-- set_microphone_gain: returns the updated transport and the list of
RFCOMM writes performed. -/
def set_microphone_gain (t : Transport) (gain : Nat) : Transport × List String :=
  if t.microphone_gain = gain then (t, [])
  else ({ t with microphone_gain := gain }, [vgmLine gain])

/-- Decimal digit run at the head of the input, as %d consumes it; none when
the first character is not a digit (sscanf matching failure). -/
def scanDec (cs : List Char) : Option Nat :=
  let ds := cs.takeWhile (fun c => c.isDigit)
  if ds.isEmpty then none
  else some (ds.foldl (fun a c => a * 10 + (c.toNat - 48)) 0)

/-- The %d conversion of sscanf: skip whitespace, optional sign, then a
nonempty digit run. -/
def scanInt (cs : List Char) : Option Int :=
  let cs1 := cs.dropWhile (fun c => c.isWhitespace)
  match cs1 with
  | '-' :: rest => (scanDec rest).map (fun n => -(n : Int))
  | '+' :: rest => (scanDec rest).map (fun n => (n : Int))
  | _ => (scanDec cs1).map (fun n => (n : Int))

/-- Does the buffer start with the given literal characters?  This is the
literal-matching step of sscanf and also pa_startswith. -/
def strStartsWith (s pre : String) : Bool :=
  pre.toList.isPrefixOf s.toList

/-- sscanf(buf, pre ++ "%d", &gain): the literal characters of the pattern
must match the head of the buffer exactly, then %d converts an integer. -/
def scanAT (pre : String) (buf : String) : Option Int :=
  if strStartsWith buf pre then scanInt (buf.toList.drop pre.length)
  else none

/-- Conversion of the int scanned by sscanf to the uint16_t gain field. -/
def toU16 (i : Int) : Nat := (i % 65536).toNat

/-- Hook events fired from the RFCOMM input path, carrying the gain value
stored on the transport when the hook fires. -/
inductive HookEvent where
  | speakerGainChanged (g : Nat)
  | microphoneGainChanged (g : Nat)
deriving DecidableEq, Repr

/-- The io-event flags delivered to rfcomm_io_callback. -/
structure IoFlags where
  input : Bool
  hangup : Bool
  error : Bool
deriving DecidableEq, Repr

/-- Everything observable from one run of rfcomm_io_callback: the updated
transport gains, the telephony actions issued by a button press, the hooks
fired, the RFCOMM writes attempted, whether the transport was torn down
(unlink + free on HANGUP/ERROR), and whether a write error was logged. -/
structure IoOutcome where
  t : Transport
  actions : List ButtonAction
  hooks : List HookEvent
  writes : List String
  teardown : Bool
  loggedWriteError : Bool
deriving DecidableEq, Repr

/-- rfcomm_io_callback: HANGUP/ERROR events destroy the transport; an INPUT
event reads one chunk, tries AT+VGS=, AT+VGM=, then AT+CKPD=200 in order,
and always answers with one OK line whose write failure is only logged. -/
def rfcomm_io_callback (t : Transport) (b : Backend) (fl : IoFlags)
    (buf : String) (writeOk : Bool) : IoOutcome :=
  if fl.hangup || fl.error then
    ⟨t, [], [], [], true, false⟩
  else if fl.input then
    let r : Transport × List HookEvent × List ButtonAction :=
      match scanAT "AT+VGS=" buf with
      | some g =>
          ({ t with speaker_gain := toU16 g },
           [.speakerGainChanged (toU16 g)], [])
      | none =>
        match scanAT "AT+VGM=" buf with
        | some g =>
            ({ t with microphone_gain := toU16 g },
             [.microphoneGainChanged (toU16 g)], [])
        | none =>
          if strStartsWith buf "AT+CKPD=200" then
            (t, [], rfcomm_handle_button b)
          else (t, [], [])
    ⟨r.1, r.2.2, r.2.1, [okLine], false, !writeOk⟩
  else
    ⟨t, [], [], [], false, false⟩

/-! ### SCO bearer acquisition -/

/-- Outcome of the connect(2) call on the SCO socket: success, or a failure
with the errno values the code distinguishes. -/
inductive ConnectRes where
  | ok
  | eagain
  | einprogress
  | otherErr (errno : Nat)
deriving DecidableEq, Repr

/-- A system call made by bluez5_sco_acquire_cb, with the address arguments
it passes (socket(PF_BLUETOOTH, SOCK_SEQPACKET, BTPROTO_SCO) carries no
address). -/
inductive ScoStep where
  | socketSeqpacketSco
  | bindTo (addr : String)
  | connectTo (addr : String)
  | closeSock
deriving DecidableEq, Repr

/-- bluez5_sco_acquire_cb, parameterised by the kernel's answers: the result
(socket handle with the two reported unit sizes, or failure) and the trace
of system calls made.  src is the local adapter address bound, dst the
remote device address connected to. -/
def bluez5_sco_acquire (src dst : String) (sockFd : Option Nat)
    (bindOk : Bool) (conn : ConnectRes) :
    Option (Nat × Nat × Nat) × List ScoStep :=
  match sockFd with
  | none => (none, [.socketSeqpacketSco])
  | some fd =>
    if !bindOk then
      (none, [.socketSeqpacketSco, .bindTo src, .closeSock])
    else
      match conn with
      | .otherErr _ =>
          (none, [.socketSeqpacketSco, .bindTo src, .connectTo dst,
                  .closeSock])
      | _ =>
          (some (fd, 48, 48),
           [.socketSeqpacketSco, .bindTo src, .connectTo dst])

/-! ### Session level: ring timer, teardown, pending requests -/

/-- RING_WAIT_TIME: 3 seconds in microseconds. -/
def RING_WAIT_TIME : Nat := 3 * 1000000

/-- rfcomm_ring_start on a live trfc: when no ring timer is armed, write one
RING immediately and arm the timer; otherwise do nothing.  Input and output
are the armed flag; also returns the writes performed. -/
def rfcomm_ring_start (armed : Bool) : Bool × List String :=
  if armed then (true, []) else (true, [ringLine])

/-- rfcomm_ring_stop: disarm the timer if armed; idempotent. -/
def rfcomm_ring_stop (_armed : Bool) : Bool := false

/-- ring_time_cb: on expiry write RING and restart the timer at now plus
RING_WAIT_TIME; the timer stays armed. -/
def ring_time_cb (now : Nat) : List String × Bool × Nat :=
  ([ringLine], true, now + RING_WAIT_TIME)

/-- One outstanding asynchronous telephony enumeration request on the
backend's pending list. -/
inductive PendingReq where
  | getModems
  | getCalls (modemPath : String)
deriving DecidableEq, Repr

/-- Session-level state: the backend registry, whether the RFCOMM transport
(trfc) still exists, whether the ring timer is armed, and the backend's
pending-request list. -/
structure Session where
  backend : Backend
  trfcPresent : Bool
  ringArmed : Bool
  pending : List PendingReq
deriving DecidableEq, Repr

/-- PA_LLIST_PREPEND in send_and_add_to_pending: new requests go to the head
of the backend's pending list. -/
def send_and_add_to_pending (s : Session) (r : PendingReq) : Session :=
  { s with pending := r :: s.pending }

/-- PA_LLIST_REMOVE of one specific node when its reply is consumed. -/
def removePending : List PendingReq → PendingReq → List PendingReq
  | [], _ => []
  | x :: xs, r => if x = r then xs else x :: removePending xs r

/-- transport_destroy: clears the call registry, stops the ring timer and
frees trfc; the backend's pending list is not touched (it is only freed in
pa_bluetooth_droid_backend_hsp_free). -/
def transport_destroy (s : Session) : Session :=
  { s with
    backend := voicecall_clear_calls s.backend,
    ringArmed := false,
    trfcPresent := false }

/-- voicecall_parse_call as run inside a reply or signal handler: updates
the backend and, when the parsed call is an only incoming call, invokes
rfcomm_ring_start on backend->trfc.  With trfc already freed that call
dereferences NULL, which pa_assert(trfc) in rfcomm_ring_start turns into an
abort: the second component reports that assertion failure. -/
def session_parse_call (s : Session) (path : String) (st : Option String) :
    Session × Bool :=
  let r := voicecall_parse_call s.backend path st
  if r.2 then
    if s.trfcPresent then
      ({ s with backend := r.1, ringArmed := (rfcomm_ring_start s.ringArmed).1 },
       false)
    else
      ({ s with backend := r.1 }, true)
  else
    ({ s with backend := r.1 }, false)

/-- get_calls_reply: steals the reply, feeds every call entry to
voicecall_parse_call unconditionally (no check that the session is still
alive), then unlinks and frees its pending entry.  Returns the session and
whether any parse tripped the NULL-trfc assertion. -/
def get_calls_reply (s : Session) (modemPath : String)
    (calls : List (String × Option String)) : Session × Bool :=
  let folded := calls.foldl
    (fun (acc : Session × Bool) c =>
      let r := session_parse_call acc.1 c.1 c.2
      (r.1, acc.2 || r.2))
    (s, false)
  ({ folded.1 with
     pending := removePending folded.1.pending (.getCalls modemPath) },
   folded.2)

/-- Bus signals dispatched by filter_cb while a transport exists (with no
transport, filter_cb returns before touching any state). -/
inductive BusEvent where
  | ofonoVanished
  | ofonoAppeared
  | propertyChangedState (path st : String)
  | callAdded (path : String) (st : Option String)
deriving DecidableEq, Repr

/-- filter_cb on a live session: NameOwnerChanged with a nonempty old owner
clears the calls (and nothing else); a State PropertyChanged updates the
registry and always stops the ring timer; CallAdded runs
voicecall_parse_call, which may start ringing. -/
def filter_cb (s : Session) : BusEvent → Session × List String
  | .ofonoVanished =>
      ({ s with backend := voicecall_clear_calls s.backend }, [])
  | .ofonoAppeared => (s, [])
  | .propertyChangedState p st =>
      ({ s with
         backend := filter_state_changed s.backend p st,
         ringArmed := rfcomm_ring_stop s.ringArmed }, [])
  | .callAdded p st =>
      let r := voicecall_parse_call s.backend p st
      if r.2 then
        let rs := rfcomm_ring_start s.ringArmed
        ({ s with backend := r.1, ringArmed := rs.1 }, rs.2)
      else
        ({ s with backend := r.1 }, [])

/-! ### Helper lemmas on the ordered-map model -/

lemma mem_omapPut_self (m : OMap) (k : String) : k ∈ omapPut m k := by
  unfold omapPut; split <;> simp_all

lemma mem_omapPut_of_mem {m : OMap} {p : String} (k : String) (h : p ∈ m) :
    p ∈ omapPut m k := by
  unfold omapPut; split <;> simp_all

lemma mem_omapRemove {m : OMap} {p k : String} :
    p ∈ omapRemove m k ↔ p ∈ m ∧ p ≠ k := by
  simp [omapRemove, List.mem_filter]

lemma not_mem_omapRemove_self (m : OMap) (k : String) :
    k ∉ omapRemove m k := by
  simp [mem_omapRemove]

lemma omapPut_omapRemove_self (m : OMap) (k : String) :
    omapPut (omapRemove m k) k = omapRemove m k ++ [k] := by
  rw [omapPut, if_neg (not_mem_omapRemove_self m k)]

lemma omapLast_omapPut {m : OMap} {k : String} (h : k ∉ m) :
    omapLast (omapPut m k) = some k := by
  rw [omapPut, if_neg h, omapLast, List.getLast?_concat]

/-! ### Claim theorems -/

/-- C1, counterexample: from the empty registry, observe an incoming call
"/a", observe an active call "/b", then transition "/b" to held.  The
resulting state has an incoming call set and no active calls, yet the
button press issues HoldAndAnswer, not the Answer the claim requires when
no active calls exist: the branch in rfcomm_handle_button tests
pa_hashmap_size(call_paths) == 1, not emptiness of active_calls. -/
theorem C1_counterexample :
    let b := regRun [RegOp.observe "/a" (some "incoming"),
                     RegOp.observe "/b" (some "active"),
                     RegOp.transition "/b" "held"]
    b.incoming_call_path = some "/a" ∧ b.active_calls = [] ∧
    rfcomm_handle_button b = [ButtonAction.holdAndAnswer "/a"] ∧
    rfcomm_handle_button b ≠ [ButtonAction.answer "/a"] := by
  decide

/-- C1 (amended): with an incoming call set, a button press issues exactly
one action on the incoming call; it is Answer when the incoming call is the
only known call (call_paths has exactly one entry) and HoldAndAnswer
otherwise, so the choice depends only on the number of known calls. -/
theorem C1_button_incoming (b : Backend) (inc : String)
    (h : b.incoming_call_path = some inc) :
    rfcomm_handle_button b =
      (if b.call_paths.length = 1 then [ButtonAction.answer inc]
       else [ButtonAction.holdAndAnswer inc]) := by
  unfold rfcomm_handle_button
  rw [h]

/-- Witness for C1_button_incoming at a two-call state. -/
theorem C1_button_incoming_witness :
    rfcomm_handle_button ⟨["/a", "/b"], [], ["/b"], some "/a"⟩ =
      [ButtonAction.holdAndAnswer "/a"] := by
  have h := C1_button_incoming ⟨["/a", "/b"], [], ["/b"], some "/a"⟩ "/a" rfl
  simpa using h

/-- C2, counterexample: two operation sequences from the empty registry
violate the claimed invariants.  Observing "/a" incoming and then
transitioning it to held leaves incoming_call_path = "/a" while "/a" sits
in held_calls (the held branch of filter_cb never clears the incoming
pointer); observing "/a" active, holding it, then observing it active again
leaves "/a" in both active_calls and held_calls (voicecall_parse_call
refreshes active_calls but never removes from held_calls). -/
theorem C2_counterexample :
    (let b := regRun [RegOp.observe "/a" (some "incoming"),
                      RegOp.transition "/a" "held"]
     b.incoming_call_path = some "/a" ∧ "/a" ∈ b.held_calls) ∧
    (let b := regRun [RegOp.observe "/a" (some "active"),
                      RegOp.transition "/a" "held",
                      RegOp.observe "/a" (some "active")]
     "/a" ∈ b.active_calls ∧ "/a" ∈ b.held_calls) := by
  decide

/-- The part of the C2 invariant the code does maintain: the incoming call,
when set, is a known call path. -/
def IncInAll (b : Backend) : Prop :=
  ∀ p, b.incoming_call_path = some p → p ∈ b.call_paths

lemma incInAll_regStep (b : Backend) (op : RegOp) (h : IncInAll b) :
    IncInAll (regStep b op) := by
  cases op with
  | observe q s =>
    intro p hp
    cases hs : stateIsIncoming s with
    | true =>
      simp only [regStep, voicecall_parse_call, hs, if_true] at hp ⊢
      cases hp
      exact mem_omapPut_self _ _
    | false =>
      simp only [regStep, voicecall_parse_call, hs, Bool.false_eq_true,
        if_false] at hp ⊢
      exact mem_omapPut_of_mem _ (h p hp)
  | transition q s =>
    intro p hp
    simp only [regStep, filter_state_changed] at hp ⊢
    split_ifs at hp ⊢ <;> (try dsimp only at hp ⊢) <;>
      first
        | exact h p hp
        | exact mem_omapRemove.mpr ⟨h p hp, by simp_all⟩

lemma incInAll_run (ops : List RegOp) :
    ∀ b, IncInAll b → IncInAll (ops.foldl regStep b) := by
  induction ops with
  | nil => intro b h; exact h
  | cons op rest ih => intro b h; exact ih _ (incInAll_regStep b op h)

/-- C2 (amended): after every sequence of observe/transition operations
from the empty registry, incoming_call_path, when set, names a call present
in call_paths.  The remaining parts of the claim — disjointness of
active_calls and held_calls and absence of the incoming call from both —
do not hold (see the counterexample). -/
theorem C2_incoming_in_all_calls (ops : List RegOp) (p : String)
    (h : (regRun ops).incoming_call_path = some p) :
    p ∈ (regRun ops).call_paths :=
  incInAll_run ops emptyBackend
    (fun q hq => by simp [emptyBackend] at hq) p h

/-- Witness for C2_incoming_in_all_calls on a one-observe sequence. -/
theorem C2_incoming_in_all_calls_witness :
    "/a" ∈ (regRun [RegOp.observe "/a" (some "incoming")]).call_paths :=
  C2_incoming_in_all_calls [RegOp.observe "/a" (some "incoming")] "/a"
    (by decide)

/-- C3: the claim is right and the code is wrong.  transport_destroy leaves
the backend's pending-request list intact, and a GetCalls reply arriving
after teardown still runs voicecall_parse_call, inserting the call into the
cleared registry; when the parsed call is an only incoming call it even
invokes rfcomm_ring_start on the freed (NULL) trfc, tripping
pa_assert(trfc).  Shown here on a session torn down with two outstanding
enumeration requests. -/
theorem C3_pending_not_discarded :
    let s0 : Session := ⟨emptyBackend, true, false,
      [PendingReq.getCalls "/m", PendingReq.getModems]⟩
    let s1 := transport_destroy s0
    s1.pending = [PendingReq.getCalls "/m", PendingReq.getModems] ∧
    (get_calls_reply s1 "/m" [("/m/c1", some "active")]).1.backend.call_paths
      = ["/m/c1"] ∧
    (get_calls_reply s1 "/m" [("/m/c1", some "incoming")]).2 = true := by
  decide

/-- C4, counterexample: observing a second incoming call overwrites an
incoming_call_path that is already set (the claim says it is set only when
unset), and observing a held call with a non-incoming state leaves it in
held_calls (the claim says observe removes the id from held_calls before
inserting into active_calls; the code removes it from active_calls
instead). -/
theorem C4_counterexample :
    (voicecall_parse_call (regRun [RegOp.observe "/a" (some "incoming")])
        "/b" (some "incoming")).1.incoming_call_path = some "/b" ∧
    (regRun [RegOp.observe "/a" (some "active"),
             RegOp.transition "/a" "held",
             RegOp.observe "/a" (some "active")]).held_calls = ["/a"] := by
  decide

/-- C4 (amended): observe(id, state) inserts an unknown id into all_calls;
when the state is incoming or waiting it sets incoming_call_path to id
unconditionally (overwriting any previously set incoming call), leaves
active and held untouched, and signals start-ringing exactly when id is the
only known call; for any other state it removes id from active_calls and
re-inserts it at the tail of active_calls (refreshing its insertion
position), leaving held_calls unchanged. -/
theorem C4_observe (b : Backend) (p : String) (st : Option String) :
    (voicecall_parse_call b p st).1.call_paths = omapPut b.call_paths p ∧
    (stateIsIncoming st = true →
       (voicecall_parse_call b p st).1.incoming_call_path = some p ∧
       (voicecall_parse_call b p st).1.active_calls = b.active_calls ∧
       (voicecall_parse_call b p st).1.held_calls = b.held_calls ∧
       ((voicecall_parse_call b p st).2 = true ↔
          (omapPut b.call_paths p).length = 1)) ∧
    (stateIsIncoming st = false →
       (voicecall_parse_call b p st).1.incoming_call_path
         = b.incoming_call_path ∧
       (voicecall_parse_call b p st).1.held_calls = b.held_calls ∧
       (voicecall_parse_call b p st).1.active_calls
         = omapRemove b.active_calls p ++ [p] ∧
       (voicecall_parse_call b p st).2 = false) := by
  unfold voicecall_parse_call
  cases hs : stateIsIncoming st <;> simp [hs, omapPut_omapRemove_self]

/-- Witness for C4_observe at a concrete incoming observation. -/
theorem C4_observe_witness :
    (voicecall_parse_call emptyBackend "/a" (some "incoming")).2 = true :=
  ((C4_observe emptyBackend "/a" (some "incoming")).2.1 (by decide)).2.2.2.mpr
    (by decide)

/-- C5, counterexample: path_get_modem truncates its copy of the path at
the first separator found from index 1 on, i.e. at the second separator of
a well-formed object path, so /org/ofono/modem0/voicecall01 yields /org,
not the /org/ofono/modem0 stated in the claim. -/
theorem C5_counterexample :
    path_get_modem "/org/ofono/modem0/voicecall01" = some "/org" ∧
    path_get_modem "/org/ofono/modem0/voicecall01"
      ≠ some "/org/ofono/modem0" := by
  decide

lemma firstSlash_append (a r : List Char) (h : '/' ∉ a) :
    firstSlash (a ++ '/' :: r) = some a.length := by
  induction a with
  | nil => simp [firstSlash]
  | cons c cs ih =>
    have hc : ¬c = '/' := fun hcc => h (by simp [hcc])
    have hcs : '/' ∉ cs := fun hm => h (by simp [hm])
    simp [firstSlash, hc, ih hcs]

lemma pathGetModemL_wellformed (a r : List Char) (ha : '/' ∉ a)
    (hne : a ≠ []) :
    pathGetModemL ('/' :: (a ++ '/' :: r)) = some ('/' :: a) := by
  have hlen : ¬(('/' :: (a ++ '/' :: r)).length < 2) := by
    cases a with
    | nil => exact absurd rfl hne
    | cons c cs => simp
  rw [pathGetModemL, if_neg hlen]
  simp [firstSlash_append a r ha, List.take_left]

/-- C5 (amended): modem-owner extraction takes the call identity's prefix
up to (not including) its second path separator, so
/org/ofono/modem0/voicecall01 yields /org (for a two-component oFono path
such as /ril0/voicecall01 this is the modem path /ril0); an identity with
no second separator such as /badpath yields no owner, and the per-modem
HoldAndAnswer and SwapCalls actions are no-ops whenever no owner can be
derived. -/
theorem C5_modem_extraction :
    (∀ (a r : List Char), '/' ∉ a → a ≠ [] →
       pathGetModemL ('/' :: (a ++ '/' :: r)) = some ('/' :: a)) ∧
    path_get_modem "/org/ofono/modem0/voicecall01" = some "/org" ∧
    path_get_modem "/ril0/voicecall01" = some "/ril0" ∧
    path_get_modem "/badpath" = none ∧
    (∀ p, path_get_modem p = none →
       voicecall_hold_and_answer p = [] ∧ voicecall_swap_calls p = []) := by
  refine ⟨pathGetModemL_wellformed, by decide, by decide, by decide, ?_⟩
  intro p hp
  constructor <;> simp [voicecall_hold_and_answer, voicecall_swap_calls, hp]

/-- Witness for C5_modem_extraction on concrete path components. -/
theorem C5_modem_extraction_witness :
    pathGetModemL ('/' :: ("org".toList ++ '/' :: "x".toList))
      = some ('/' :: "org".toList) ∧
    voicecall_hold_and_answer "/badpath" = [] :=
  ⟨C5_modem_extraction.1 "org".toList "x".toList (by decide) (by decide),
   (C5_modem_extraction.2.2.2.2 "/badpath" (by decide)).1⟩

/-- C6: with no incoming call, a button press issues Hangup on the most
recently inserted active call followed by SwapCalls on the most recently
inserted held call when both sets are nonempty, Hangup on the last active
call alone when only active calls exist, Hangup on the last held call when
only held calls exist, and nothing when all sets are empty; the last
conjunct ties "last" to insertion order: a fresh put lands at the tail of
the map. -/
theorem C6_button_no_incoming (b : Backend)
    (hinc : b.incoming_call_path = none) :
    (∀ a h, omapLast b.active_calls = some a →
       omapLast b.held_calls = some h →
       rfcomm_handle_button b
         = [ButtonAction.hangup a, ButtonAction.swapCalls h]) ∧
    (∀ a, omapLast b.active_calls = some a → b.held_calls = [] →
       rfcomm_handle_button b = [ButtonAction.hangup a]) ∧
    (∀ h, b.active_calls = [] → omapLast b.held_calls = some h →
       rfcomm_handle_button b = [ButtonAction.hangup h]) ∧
    (b.active_calls = [] → b.held_calls = [] →
       rfcomm_handle_button b = []) ∧
    (∀ (m : OMap) (k : String), k ∉ m → omapLast (omapPut m k) = some k) := by
  refine ⟨?_, ?_, ?_, ?_, fun m k hk => omapLast_omapPut hk⟩
  · intro a h ha hh
    simp only [omapLast] at ha hh
    simp [rfcomm_handle_button, omapLast, hinc, ha, hh]
  · intro a ha hh
    simp only [omapLast] at ha
    simp [rfcomm_handle_button, omapLast, hinc, ha, hh]
  · intro h ha hh
    simp only [omapLast] at hh
    simp [rfcomm_handle_button, omapLast, hinc, ha, hh]
  · intro ha hh
    simp [rfcomm_handle_button, omapLast, hinc, ha, hh]

/-- Witness for C6_button_no_incoming with one active and one held call. -/
theorem C6_button_no_incoming_witness :
    rfcomm_handle_button ⟨["/x", "/y"], ["/x"], ["/y"], none⟩ =
      [ButtonAction.hangup "/x", ButtonAction.swapCalls "/y"] :=
  (C6_button_no_incoming ⟨["/x", "/y"], ["/x"], ["/y"], none⟩ rfl).1
    "/x" "/y" rfl rfl

/-- C7: the gain setters suppress the write and the state update when the
new value equals the stored one, otherwise store the value and emit exactly
one formatted notification line; consequently two consecutive
set_speaker_gain(t, 7) calls from a state not already at 7 produce exactly
one write in total and the second call is a no-op. -/
theorem C7_gain_setters (t : Transport) (g : Nat) :
    (t.speaker_gain = g → set_speaker_gain t g = (t, [])) ∧
    (t.speaker_gain ≠ g →
       (set_speaker_gain t g).1.speaker_gain = g ∧
       (set_speaker_gain t g).2 = [vgsLine g]) ∧
    (t.microphone_gain = g → set_microphone_gain t g = (t, [])) ∧
    (t.microphone_gain ≠ g →
       (set_microphone_gain t g).1.microphone_gain = g ∧
       (set_microphone_gain t g).2 = [vgmLine g]) ∧
    (t.speaker_gain ≠ 7 →
       (set_speaker_gain t 7).2
         ++ (set_speaker_gain (set_speaker_gain t 7).1 7).2 = [vgsLine 7] ∧
       set_speaker_gain (set_speaker_gain t 7).1 7
         = ((set_speaker_gain t 7).1, []) ∧
       (set_speaker_gain t 7).1.speaker_gain = 7) := by
  refine ⟨?_, ?_, ?_, ?_, ?_⟩ <;> intro h <;>
    simp [set_speaker_gain, set_microphone_gain, h]

/-- Witness for C7_gain_setters starting from speaker gain 3. -/
theorem C7_gain_setters_witness :
    (set_speaker_gain ⟨3, 0⟩ 7).2
      ++ (set_speaker_gain (set_speaker_gain ⟨3, 0⟩ 7).1 7).2
      = [vgsLine 7] :=
  ((C7_gain_setters ⟨3, 0⟩ 7).2.2.2.2 (by decide)).1

/-- C8: decoding "AT+VGS=11\r\n" stores speaker gain 11, fires one
SpeakerGainChanged hook carrying 11 and answers with exactly one OK line;
every input chunk is answered with exactly one OK line; an unrecognized
line changes nothing and is not an error; a failed OK write is logged but
never tears the transport down. -/
theorem C8_at_line_decode :
    (∀ (t : Transport) (b : Backend) (w : Bool),
       rfcomm_io_callback t b ⟨true, false, false⟩ "AT+VGS=11\r\n" w =
         ⟨{ t with speaker_gain := 11 }, [],
          [HookEvent.speakerGainChanged 11], [okLine], false, !w⟩) ∧
    (∀ (t : Transport) (b : Backend) (buf : String) (w : Bool),
       (rfcomm_io_callback t b ⟨true, false, false⟩ buf w).writes
         = [okLine]) ∧
    (∀ (t : Transport) (b : Backend) (buf : String) (w : Bool),
       scanAT "AT+VGS=" buf = none → scanAT "AT+VGM=" buf = none →
       strStartsWith buf "AT+CKPD=200" = false →
       rfcomm_io_callback t b ⟨true, false, false⟩ buf w =
         ⟨t, [], [], [okLine], false, !w⟩) ∧
    (∀ (t : Transport) (b : Backend) (buf : String),
       (rfcomm_io_callback t b ⟨true, false, false⟩ buf false).teardown
         = false ∧
       (rfcomm_io_callback t b ⟨true, false, false⟩ buf
           false).loggedWriteError = true) := by
  have hv : scanAT "AT+VGS=" "AT+VGS=11\r\n" = some 11 := by decide
  refine ⟨?_, ?_, ?_, ?_⟩
  · intro t b w
    simp [rfcomm_io_callback, hv]
    decide
  · intro t b buf w
    simp [rfcomm_io_callback]
  · intro t b buf w h1 h2 h3
    simp [rfcomm_io_callback, h1, h2, h3]
  · intro t b buf
    simp [rfcomm_io_callback]

/-- Witness for C8_at_line_decode on a line matching no recognized form. -/
theorem C8_at_line_decode_witness :
    rfcomm_io_callback ⟨0, 0⟩ emptyBackend ⟨true, false, false⟩
        "ATD123\r\n" true =
      ⟨⟨0, 0⟩, [], [], [okLine], false, false⟩ :=
  C8_at_line_decode.2.2.1 ⟨0, 0⟩ emptyBackend "ATD123\r\n" true
    (by decide) (by decide) (by decide)

/-- C9: SCO acquisition makes a SOCK_SEQPACKET socket of the SCO protocol,
binds it to the local adapter address, connects it to the remote device
address, treats EAGAIN and EINPROGRESS connect outcomes as success, closes
the socket and fails the acquisition on a bind failure or any other connect
failure, and reports the fixed 48-byte unit sizes on every success. -/
theorem C9_sco_acquire (src dst : String) (fd : Nat) (conn : ConnectRes) :
    (bluez5_sco_acquire src dst (some fd) true ConnectRes.ok
       = (some (fd, 48, 48),
          [ScoStep.socketSeqpacketSco, ScoStep.bindTo src,
           ScoStep.connectTo dst])) ∧
    (bluez5_sco_acquire src dst (some fd) true ConnectRes.eagain
       = (some (fd, 48, 48),
          [ScoStep.socketSeqpacketSco, ScoStep.bindTo src,
           ScoStep.connectTo dst])) ∧
    (bluez5_sco_acquire src dst (some fd) true ConnectRes.einprogress
       = (some (fd, 48, 48),
          [ScoStep.socketSeqpacketSco, ScoStep.bindTo src,
           ScoStep.connectTo dst])) ∧
    (∀ e, bluez5_sco_acquire src dst (some fd) true (ConnectRes.otherErr e)
       = (none,
          [ScoStep.socketSeqpacketSco, ScoStep.bindTo src,
           ScoStep.connectTo dst, ScoStep.closeSock])) ∧
    (bluez5_sco_acquire src dst (some fd) false conn
       = (none,
          [ScoStep.socketSeqpacketSco, ScoStep.bindTo src,
           ScoStep.closeSock])) ∧
    (bluez5_sco_acquire src dst none true conn
       = (none, [ScoStep.socketSeqpacketSco])) ∧
    (∀ (sfd : Option Nat) (bOk : Bool) (h i o : Nat) (tr : List ScoStep),
       bluez5_sco_acquire src dst sfd bOk conn = (some (h, i, o), tr) →
       i = 48 ∧ o = 48) := by
  refine ⟨rfl, rfl, rfl, fun e => rfl, ?_, rfl, ?_⟩
  · cases conn <;> rfl
  · intro sfd bOk h i o tr hEq
    cases sfd with
    | none => simp [bluez5_sco_acquire] at hEq
    | some f =>
      cases bOk with
      | false => simp [bluez5_sco_acquire] at hEq
      | true =>
        cases conn <;> simp [bluez5_sco_acquire] at hEq <;> omega

/-- Witness for C9_sco_acquire at an in-progress connect. -/
theorem C9_sco_acquire_witness :
    bluez5_sco_acquire "AA" "BB" (some 9) true ConnectRes.einprogress
      = (some (9, 48, 48),
         [ScoStep.socketSeqpacketSco, ScoStep.bindTo "AA",
          ScoStep.connectTo "BB"]) :=
  (C9_sco_acquire "AA" "BB" 9 ConnectRes.einprogress).2.2.1

/-- C10: voicecall_clear_calls empties the three maps and clears the
incoming-call pointer, and the oFono-disappeared path of filter_cb does
only that: the ring timer stays exactly as it was; the armed timer keeps
rewriting RING and re-arming itself at the 3-second period, and only a
State property change (any state value) or transport teardown disarms
it. -/
theorem C10_clear_calls_ring_frame (s : Session) (b : Backend) (now : Nat) :
    voicecall_clear_calls b =
      { call_paths := [], active_calls := [], held_calls := [],
        incoming_call_path := none } ∧
    (filter_cb s BusEvent.ofonoVanished).1.ringArmed = s.ringArmed ∧
    (filter_cb s BusEvent.ofonoVanished).1.backend =
      { call_paths := [], active_calls := [], held_calls := [],
        incoming_call_path := none } ∧
    ring_time_cb now = ([ringLine], true, now + RING_WAIT_TIME) ∧
    RING_WAIT_TIME = 3 * 1000000 ∧
    (∀ p st,
       (filter_cb s (BusEvent.propertyChangedState p st)).1.ringArmed
         = false) ∧
    (transport_destroy s).ringArmed = false :=
  ⟨rfl, rfl, rfl, rfl, rfl, fun _ _ => rfl, rfl⟩

end DroidHsp
